import Mathlib

/-!
Shallow embedding of the billflow-backend invoice/payment workflow
(app/services/invoice_service.py, app/services/payment_service.py,
app/models/invoice.py, app/models/payment.py, app/schemas/invoice.py).

Monetary `Decimal` values are modelled as exact rationals (`Rat`), dates as
integer day numbers, datetimes as integer timestamps.  Database state for a
single invoice is the invoice record plus the list of its payments; the
overdue sweep acts on a list of invoice rows.  Exceptions raised by the
services become an explicit error type.
-/

namespace Billflow

/-- Invoice status enum, from app/models/invoice.py `InvoiceStatus`. -/
inductive InvoiceStatus
  | draft
  | sent
  | paid
  | overdue
  | cancelled
deriving DecidableEq, Repr

/-- Line-item creation payload, from app/schemas/invoice.py
`InvoiceItemCreate`: `quantity` is an `int` (validated `gt=0`),
`unit_price` a `Decimal` (validated `gt=0`). -/
structure InvoiceItemCreate where
  quantity : Int
  unit_price : Rat
deriving DecidableEq, Repr

/-- Result dict of `InvoiceService.calculate_invoice_totals`. -/
structure Totals where
  subtotal : Rat
  tax_amount : Rat
  total_amount : Rat
deriving DecidableEq, Repr

/-- `InvoiceService.calculate_invoice_totals` (invoice_service.py lines
49-73): subtotal is the sum of `quantity * unit_price`; the discounted
amount is clamped at zero; tax is `discounted * tax_rate / 100`; the total
is `discounted + tax`.  The Python code performs no rounding step. -/
def calculate_invoice_totals (items : List InvoiceItemCreate)
    (tax_rate discount : Rat) : Totals :=
  let subtotal : Rat := (items.map (fun i => (i.quantity : Rat) * i.unit_price)).sum
  let discounted_amount : Rat :=
    if subtotal - discount < 0 then 0 else subtotal - discount
  let tax_amount : Rat := discounted_amount * tax_rate / 100
  let total_amount : Rat := discounted_amount + tax_amount
  { subtotal := subtotal, tax_amount := tax_amount, total_amount := total_amount }

/-- Invoice row, from app/models/invoice.py `Invoice` (the columns the
services read or write). -/
structure Invoice where
  status : InvoiceStatus
  subtotal : Rat
  tax_amount : Rat
  total_amount : Rat
  tax_rate : Rat
  discount : Rat
  due_date : Int
  sent_at : Option Int := none
  paid_at : Option Int := none
deriving DecidableEq, Repr

/-- Payment row, from app/models/payment.py `Payment` (id and amount are
the fields the services use). -/
structure Payment where
  id : Nat
  amount : Rat
deriving DecidableEq, Repr

/-- Errors raised by the service layer.  The exceptions module
app/utils/exceptions.py only exports `NotFoundException` and
`BadRequestException` to the services; `badRequest` is the error the
services raise for what the taxonomy of the spec calls `ConflictError`
(illegal state transition, over-payment). -/
inductive ServiceError
  | notFound
  | badRequest
deriving DecidableEq, Repr

/-- Events published to RabbitMQ by the services, with the payload fields
the claims refer to. -/
inductive Event
  | invoiceUpdated
  | invoiceSent
  | invoicePaid
  | paymentCompleted (amount : Rat) (total_amount : Rat)
  | paymentReminder (days_overdue : Int)
deriving DecidableEq, Repr

/-- Successful result of `PaymentService.record_payment`: the (possibly
updated) invoice row, the payment amounts of the invoice after the insert, and
the published events. -/
structure RecordResult where
  invoice : Invoice
  payments : List Rat
  events : List Event
deriving DecidableEq, Repr

/-- `PaymentService.record_payment` (payment_service.py lines 18-88) after
the invoice has been loaded (a missing invoice raises `NotFoundException`
before this logic runs).  `payments` are the amounts of the existing
payment rows.  The code rejects cancelled invoices, rejects when
existing sum + amount exceeds `total_amount`, inserts the payment, and
when existing sum + amount reaches `total_amount` marks the invoice paid,
sets `paid_at`, and publishes `payment.completed`. -/
def record_payment (invoice : Invoice) (payments : List Rat) (amount : Rat)
    (now : Int) : Except ServiceError RecordResult :=
  if invoice.status = InvoiceStatus.cancelled then
    Except.error ServiceError.badRequest
  else if payments.sum + amount > invoice.total_amount then
    Except.error ServiceError.badRequest
  else if payments.sum + amount ≥ invoice.total_amount then
    Except.ok
      { invoice := { invoice with status := InvoiceStatus.paid, paid_at := some now }
        payments := payments ++ [amount]
        events := [Event.paymentCompleted amount invoice.total_amount] }
  else
    Except.ok { invoice := invoice, payments := payments ++ [amount], events := [] }

/-- `PaymentService.delete_payment` (payment_service.py lines 118-168)
after the ownership-scoped lookup: `none` models the `return False` branch
for a missing payment; otherwise the payment row is removed and, when the
invoice was `paid` and the remaining payments sum below `total_amount`,
the invoice reverts to `sent` with `paid_at` cleared. -/
def delete_payment (invoice : Invoice) (payments : List Payment)
    (payment_id : Nat) : Option (Invoice × List Payment) :=
  match payments.find? (fun p => p.id == payment_id) with
  | none => none
  | some _ =>
    let other_payments := payments.filter (fun p => p.id != payment_id)
    let total_remaining := (other_payments.map Payment.amount).sum
    let invoice' :=
      if invoice.status = InvoiceStatus.paid then
        if total_remaining < invoice.total_amount then
          { invoice with status := InvoiceStatus.sent, paid_at := none }
        else invoice
      else invoice
    some (invoice', other_payments)

/-- `InvoiceService.mark_as_paid` (invoice_service.py lines 407-442) after
the invoice has been loaded: the only status guard is rejecting an invoice
that is already `paid`. -/
def mark_as_paid (invoice : Invoice) (now : Int) :
    Except ServiceError (Invoice × List Event) :=
  if invoice.status = InvoiceStatus.paid then
    Except.error ServiceError.badRequest
  else
    Except.ok ({ invoice with status := InvoiceStatus.paid, paid_at := some now },
               [Event.invoicePaid])

/-- Partial-update payload, from app/schemas/invoice.py `InvoiceUpdate`
with the pydantic `exclude_unset=True` dump: `none` means the caller did not
supply the field, so `setattr` is not executed for it. -/
structure InvoiceUpdate where
  status : Option InvoiceStatus := none
  tax_rate : Option Rat := none
  discount : Option Rat := none
  due_date : Option Int := none
  items : Option (List InvoiceItemCreate) := none

/-- `InvoiceService.update_invoice` (invoice_service.py lines 259-336)
after the invoice has been loaded: paid and cancelled invoices are
rejected; the provided scalar fields are written; only when `items` is
provided are the items replaced and the totals recomputed (with the
already-updated `tax_rate` and `discount`). -/
def update_invoice (invoice : Invoice) (upd : InvoiceUpdate) :
    Except ServiceError Invoice :=
  if invoice.status = InvoiceStatus.paid ∨ invoice.status = InvoiceStatus.cancelled then
    Except.error ServiceError.badRequest
  else
    let inv1 : Invoice :=
      { invoice with
        status := upd.status.getD invoice.status
        tax_rate := upd.tax_rate.getD invoice.tax_rate
        discount := upd.discount.getD invoice.discount
        due_date := upd.due_date.getD invoice.due_date }
    match upd.items with
    | none => Except.ok inv1
    | some items =>
      let totals := calculate_invoice_totals items inv1.tax_rate inv1.discount
      Except.ok
        { inv1 with
          subtotal := totals.subtotal
          tax_amount := totals.tax_amount
          total_amount := totals.total_amount }

/-- `InvoiceService.delete_invoice` (invoice_service.py lines 338-360)
after the invoice has been loaded: deletion of paid invoices is rejected. -/
def delete_invoice (invoice : Invoice) : Except ServiceError Unit :=
  if invoice.status = InvoiceStatus.paid then
    Except.error ServiceError.badRequest
  else
    Except.ok ()

/-- `InvoiceService.send_invoice` (invoice_service.py lines 362-405) after
the invoice has been loaded: only draft invoices with a client email can
be sent. -/
def send_invoice (invoice : Invoice) (client_email : Option String)
    (now : Int) : Except ServiceError (Invoice × List Event) :=
  if invoice.status ≠ InvoiceStatus.draft then
    Except.error ServiceError.badRequest
  else if client_email = none ∨ client_email = some "" then
    Except.error ServiceError.badRequest
  else
    Except.ok ({ invoice with status := InvoiceStatus.sent, sent_at := some now },
               [Event.invoiceSent])

/-- Selection condition of the query of the overdue sweep
(invoice_service.py lines 493-500): status is `sent` and `due_date` is
before today. -/
def sweep_hits (today : Int) (inv : Invoice) : Bool :=
  decide (inv.status = InvoiceStatus.sent) && decide (inv.due_date < today)

/-- Effect of the sweep loop body on one selected row
(invoice_service.py lines 504-505); unselected rows are untouched. -/
def sweep_invoice (today : Int) (inv : Invoice) : Invoice :=
  if sweep_hits today inv then { inv with status := InvoiceStatus.overdue } else inv

/-- `InvoiceService.update_overdue_invoices` (invoice_service.py lines
489-524): the table of invoice rows after the sweep, and the
`email.payment_reminder` events published, one per selected invoice, with
`days_overdue = (today - invoice.due_date).days`. -/
def update_overdue_invoices (today : Int) (invoices : List Invoice) :
    List Invoice × List Event :=
  (invoices.map (sweep_invoice today),
   (invoices.filter (sweep_hits today)).map
     (fun inv => Event.paymentReminder (today - inv.due_date)))

/-- Sample invoice used to instantiate theorems: a draft invoice with
subtotal and total 100, no tax, no discount, due on day 30. -/
def sampleDraft : Invoice :=
  { status := InvoiceStatus.draft, subtotal := 100, tax_amount := 0,
    total_amount := 100, tax_rate := 0, discount := 0, due_date := 30 }

/-- Sample cancelled invoice. -/
def sampleCancelled : Invoice :=
  { sampleDraft with status := InvoiceStatus.cancelled }

/-- Sample paid invoice. -/
def samplePaid : Invoice :=
  { sampleDraft with status := InvoiceStatus.paid, paid_at := some 5 }

/-- Sample sent invoice whose due date (day 9) is one day before the
sweep `today` (day 10). -/
def sampleSentYesterday : Invoice :=
  { sampleDraft with status := InvoiceStatus.sent, due_date := 9, sent_at := some 1 }

/-- Zero-clamping as written in the Python code agrees with `max 0`. -/
theorem clamp_eq_max (x : Rat) : (if x < 0 then 0 else x) = max 0 x := by
  rcases lt_or_le x 0 with h | h
  · rw [if_pos h, max_eq_left h.le]
  · rw [if_neg (not_lt.mpr h), max_eq_right h]

/-- C3: for items with positive quantity and unit price, any tax rate and
discount, `calculate_invoice_totals` returns subtotal = Σ quantity ×
unit_price, tax = max(0, subtotal − discount) × taxRate / 100, and total =
max(0, subtotal − discount) + tax; in particular Scenario A (qty 2 ×
50.00, tax 10%, discount 0 → 100 / 10 / 110) and Scenario B (discount 150
clamps to 0 → tax 0, total 0). -/
theorem C3_calculate_totals (items : List InvoiceItemCreate)
    (tax_rate discount : Rat)
    (hpos : ∀ i ∈ items, 0 < i.quantity ∧ 0 < i.unit_price) :
    ((calculate_invoice_totals items tax_rate discount).subtotal =
        (items.map (fun i => (i.quantity : Rat) * i.unit_price)).sum ∧
      (calculate_invoice_totals items tax_rate discount).tax_amount =
        max 0 ((items.map (fun i => (i.quantity : Rat) * i.unit_price)).sum - discount)
          * tax_rate / 100 ∧
      (calculate_invoice_totals items tax_rate discount).total_amount =
        max 0 ((items.map (fun i => (i.quantity : Rat) * i.unit_price)).sum - discount)
          + max 0 ((items.map (fun i => (i.quantity : Rat) * i.unit_price)).sum - discount)
            * tax_rate / 100) ∧
    calculate_invoice_totals [⟨2, 50⟩] 10 0 = ⟨100, 10, 110⟩ ∧
    calculate_invoice_totals [⟨2, 50⟩] 10 150 = ⟨100, 0, 0⟩ := by
  refine ⟨⟨rfl, ?_, ?_⟩, by norm_num [calculate_invoice_totals],
      by norm_num [calculate_invoice_totals]⟩ <;>
    · simp only [calculate_invoice_totals]
      rw [clamp_eq_max]

/-- Witness for C3: Scenario A discharged through the theorem. -/
theorem C3_calculate_totals_witness :
    calculate_invoice_totals [⟨2, 50⟩] 10 0 = ⟨100, 10, 110⟩ :=
  (C3_calculate_totals [⟨2, 50⟩] 10 0 (by decide)).2.1

/-- C7 counterexample: one item of quantity 1 at unit price 0.01 with tax
rate 7 and no discount yields totalAmount = 0.0107, which equals no
integer multiple of 0.01 — so the returned total is not a multiple of
0.01 and no half-up rounding to 2 decimal places is applied at the final
total (the exact value rounded half-up to 2 places would be 0.01). -/
theorem C7_counterexample :
    (calculate_invoice_totals [⟨1, 1/100⟩] 7 0).total_amount = 107 / 10000 ∧
    ∀ k : Int, (calculate_invoice_totals [⟨1, 1/100⟩] 7 0).total_amount ≠ (k : Rat) / 100 := by
  have h : (calculate_invoice_totals [⟨1, 1/100⟩] 7 0).total_amount = 107 / 10000 := by
    norm_num [calculate_invoice_totals]
  refine ⟨h, fun k hk => ?_⟩
  rw [h] at hk
  have h2 : (10700 : Rat) = (k : Rat) * 10000 := by
    field_simp at hk
    linarith
  have h3 : (10700 : Int) = k * 10000 := by exact_mod_cast h2
  omega

/-- C7 (amended): the arithmetic is exact (rationals standing for Python
`Decimal`), and no rounding step exists: the returned total is exactly
discountedAmount + taxAmount, with no quantization to 2 decimal places. -/
theorem C7_exact_no_rounding (items : List InvoiceItemCreate)
    (tax_rate discount : Rat) :
    (calculate_invoice_totals items tax_rate discount).total_amount =
      max 0 ((calculate_invoice_totals items tax_rate discount).subtotal - discount)
        + (calculate_invoice_totals items tax_rate discount).tax_amount := by
  simp only [calculate_invoice_totals]
  rw [clamp_eq_max]

/-- C9: the total returned by `calculate_invoice_totals` is nonnegative
for every item list and discount, whenever the tax rate is nonnegative
(the schema validates `tax_rate ≥ 0`). -/
theorem C9_total_nonneg (items : List InvoiceItemCreate)
    (tax_rate discount : Rat) (htax : 0 ≤ tax_rate) :
    0 ≤ (calculate_invoice_totals items tax_rate discount).total_amount := by
  simp only [calculate_invoice_totals]
  rcases lt_or_le ((items.map (fun i => (i.quantity : Rat) * i.unit_price)).sum - discount) 0
    with h | h
  · rw [if_pos h]
    norm_num
  · rw [if_neg (not_lt.mpr h)]
    have h1 : 0 ≤ ((items.map (fun i => (i.quantity : Rat) * i.unit_price)).sum - discount)
        * tax_rate / 100 :=
      div_nonneg (mul_nonneg h htax) (by norm_num)
    exact add_nonneg h h1

/-- Witness for C9: Scenario B input (discount larger than subtotal). -/
theorem C9_total_nonneg_witness :
    0 ≤ (calculate_invoice_totals [⟨2, 50⟩] 10 150).total_amount :=
  C9_total_nonneg [⟨2, 50⟩] 10 150 (by norm_num)

/-- C1: for an invoice that is not cancelled and a positive amount,
`record_payment` rejects (raising `BadRequestException`, the error the
taxonomy of the spec calls `ConflictError`) exactly when existing payments +
amount exceed `total_amount`, producing no state change; otherwise it
persists the payment and, exactly when the sum reaches `total_amount`,
marks the invoice paid, sets `paid_at` and publishes `payment.completed`. -/
theorem C1_record_payment (invoice : Invoice) (payments : List Rat)
    (amount : Rat) (now : Int)
    (hstatus : invoice.status ≠ InvoiceStatus.cancelled) (hpos : 0 < amount) :
    (payments.sum + amount > invoice.total_amount →
        record_payment invoice payments amount now =
          Except.error ServiceError.badRequest) ∧
    (payments.sum + amount ≤ invoice.total_amount →
        ∃ r, record_payment invoice payments amount now = Except.ok r ∧
          r.payments = payments ++ [amount] ∧
          (payments.sum + amount ≥ invoice.total_amount →
              r.invoice =
                { invoice with status := InvoiceStatus.paid, paid_at := some now } ∧
              r.events = [Event.paymentCompleted amount invoice.total_amount]) ∧
          (payments.sum + amount < invoice.total_amount →
              r.invoice = invoice ∧ r.events = [])) := by
  unfold record_payment
  rw [if_neg hstatus]
  constructor
  · intro hgt
    rw [if_pos hgt]
  · intro hle
    rw [if_neg (not_lt.mpr hle)]
    by_cases hge : payments.sum + amount ≥ invoice.total_amount
    · rw [if_pos hge]
      exact ⟨_, rfl, rfl, fun _ => ⟨rfl, rfl⟩, fun hlt => absurd hge (not_le.mpr hlt)⟩
    · rw [if_neg hge]
      exact ⟨_, rfl, rfl, fun h => absurd h hge, fun _ => ⟨rfl, rfl⟩⟩

/-- Witness for C1: paying the full 100 on the sample draft invoice. -/
theorem C1_record_payment_witness :
    ∃ r, record_payment sampleDraft [] 100 7 = Except.ok r ∧
      r.payments = [] ++ [(100 : Rat)] ∧
      (([] : List Rat).sum + 100 ≥ sampleDraft.total_amount →
          r.invoice =
            { sampleDraft with status := InvoiceStatus.paid, paid_at := some 7 } ∧
          r.events = [Event.paymentCompleted 100 sampleDraft.total_amount]) ∧
      (([] : List Rat).sum + 100 < sampleDraft.total_amount →
          r.invoice = sampleDraft ∧ r.events = []) :=
  (C1_record_payment sampleDraft [] 100 7 (by decide) (by norm_num)).2
    (by norm_num [sampleDraft])

/-- C8: `mark_as_paid` on an already-paid invoice fails (with
`BadRequestException`, the `ConflictError` of the spec), producing no state
change; from any other status the first call succeeds and marks the
invoice paid, after which a second call fails — so `mark_as_paid`
succeeds at most once on the same invoice. -/
theorem C8_mark_as_paid_idempotence (invoice : Invoice) (now now2 : Int) :
    (invoice.status = InvoiceStatus.paid →
        mark_as_paid invoice now = Except.error ServiceError.badRequest) ∧
    (invoice.status ≠ InvoiceStatus.paid →
        ∃ inv' evs, mark_as_paid invoice now = Except.ok (inv', evs) ∧
          inv'.status = InvoiceStatus.paid ∧ inv'.paid_at = some now ∧
          mark_as_paid inv' now2 = Except.error ServiceError.badRequest) := by
  constructor
  · intro h
    unfold mark_as_paid
    rw [if_pos h]
  · intro h
    refine ⟨{ invoice with status := InvoiceStatus.paid, paid_at := some now },
      [Event.invoicePaid], ?_, rfl, rfl, ?_⟩
    · unfold mark_as_paid
      rw [if_neg h]
    · unfold mark_as_paid
      rw [if_pos rfl]

/-- Witness for C8: the sample paid invoice is rejected. -/
theorem C8_mark_as_paid_witness :
    mark_as_paid samplePaid 9 = Except.error ServiceError.badRequest :=
  (C8_mark_as_paid_idempotence samplePaid 9 9).1 rfl

/-- C10: the only status guard of `record_payment` is "not cancelled": a
payment within the remaining balance is accepted for draft, sent and
overdue invoices; on a paid invoice whose payments already sum to
`total_amount`, any positive amount is rejected; and a payment equal to
`total_amount` on a draft invoice with no prior payments moves it
directly to paid without passing through sent, leaving `sent_at`
untouched. -/
theorem C10_record_payment_statuses (invoice : Invoice) (payments : List Rat)
    (amount : Rat) (now : Int) :
    (invoice.status = InvoiceStatus.draft ∨ invoice.status = InvoiceStatus.sent ∨
        invoice.status = InvoiceStatus.overdue →
      payments.sum + amount ≤ invoice.total_amount →
      ∃ r, record_payment invoice payments amount now = Except.ok r) ∧
    (invoice.status = InvoiceStatus.paid → payments.sum = invoice.total_amount →
      0 < amount →
      record_payment invoice payments amount now =
        Except.error ServiceError.badRequest) ∧
    (invoice.status = InvoiceStatus.draft → payments.sum = 0 →
      amount = invoice.total_amount →
      ∃ r, record_payment invoice payments amount now = Except.ok r ∧
        r.invoice.status = InvoiceStatus.paid ∧
        r.invoice.sent_at = invoice.sent_at) := by
  refine ⟨?_, ?_, ?_⟩
  · intro h hle
    have hnc : invoice.status ≠ InvoiceStatus.cancelled := by
      rcases h with h | h | h <;> simp [h]
    unfold record_payment
    rw [if_neg hnc, if_neg (not_lt.mpr hle)]
    by_cases hge : payments.sum + amount ≥ invoice.total_amount
    · rw [if_pos hge]
      exact ⟨_, rfl⟩
    · rw [if_neg hge]
      exact ⟨_, rfl⟩
  · intro h hsum hpos
    have hnc : invoice.status ≠ InvoiceStatus.cancelled := by simp [h]
    have hgt : payments.sum + amount > invoice.total_amount := by
      rw [hsum]
      linarith
    unfold record_payment
    rw [if_neg hnc, if_pos hgt]
  · intro h hsum hamt
    have hnc : invoice.status ≠ InvoiceStatus.cancelled := by simp [h]
    have heq : payments.sum + amount = invoice.total_amount := by
      rw [hsum, hamt]
      ring
    unfold record_payment
    rw [if_neg hnc, if_neg (not_lt.mpr heq.le), if_pos heq.ge]
    exact ⟨_, rfl, rfl, rfl⟩

/-- Witness for C10: the sample draft invoice paid in full in one payment
goes straight to paid with `sent_at` still unset. -/
theorem C10_record_payment_witness :
    ∃ r, record_payment sampleDraft [] 100 7 = Except.ok r ∧
      r.invoice.status = InvoiceStatus.paid ∧
      r.invoice.sent_at = sampleDraft.sent_at :=
  (C10_record_payment_statuses sampleDraft [] 100 7).2.2 rfl (by norm_num)
    (by norm_num [sampleDraft])

/-- Helper: `delete_payment` leaves the invoice row untouched when the
invoice is not in status paid. -/
theorem delete_payment_status_not_paid (invoice : Invoice)
    (payments : List Payment) (pid : Nat)
    (h : invoice.status ≠ InvoiceStatus.paid) (r : Invoice × List Payment)
    (hr : delete_payment invoice payments pid = some r) : r.1 = invoice := by
  cases hf : payments.find? (fun q => q.id == pid) with
  | none => simp [delete_payment, hf] at hr
  | some p =>
    simp only [delete_payment, hf, if_neg h, Option.some.injEq] at hr
    rw [← hr]

/-- Helper: on a paid invoice, `delete_payment` reverts to sent with
`paid_at` cleared exactly when the remaining payments sum below
`total_amount`. -/
theorem delete_payment_paid_cases (invoice : Invoice)
    (payments : List Payment) (pid : Nat)
    (h : invoice.status = InvoiceStatus.paid) (r : Invoice × List Payment)
    (hr : delete_payment invoice payments pid = some r) :
    (((payments.filter (fun q => q.id != pid)).map Payment.amount).sum <
        invoice.total_amount →
      r.1 = { invoice with status := InvoiceStatus.sent, paid_at := none }) ∧
    (invoice.total_amount ≤
        ((payments.filter (fun q => q.id != pid)).map Payment.amount).sum →
      r.1 = invoice) := by
  cases hf : payments.find? (fun q => q.id == pid) with
  | none => simp [delete_payment, hf] at hr
  | some p =>
    simp only [delete_payment, hf, if_pos h, Option.some.injEq] at hr
    constructor
    · intro hlt
      rw [← hr, if_pos hlt]
    · intro hle
      rw [← hr, if_neg (not_lt.mpr hle)]

/-- Helper: when the payment id is found, `delete_payment` succeeds and
the remaining payment rows are exactly those with a different id. -/
theorem delete_payment_found (invoice : Invoice) (payments : List Payment)
    (pid : Nat) (p : Payment)
    (hf : payments.find? (fun q => q.id == pid) = some p) :
    ∃ inv', delete_payment invoice payments pid =
      some (inv', payments.filter (fun q => q.id != pid)) := by
  simp only [delete_payment, hf]
  exact ⟨_, rfl⟩

/-- C5: the overdue sweep turns exactly the sent invoices with due_date
before today to overdue, leaves every other row unchanged, and publishes
one `email.payment_reminder` per selected invoice carrying days_overdue =
today − due_date; a due date of yesterday yields days_overdue = 1. -/
theorem C5_overdue_sweep (invoices : List Invoice) (today : Int) :
    (update_overdue_invoices today invoices).1 =
      invoices.map (sweep_invoice today) ∧
    (∀ inv, inv.status = InvoiceStatus.sent → inv.due_date < today →
        sweep_invoice today inv = { inv with status := InvoiceStatus.overdue }) ∧
    (∀ inv, ¬ (inv.status = InvoiceStatus.sent ∧ inv.due_date < today) →
        sweep_invoice today inv = inv) ∧
    (update_overdue_invoices today invoices).2 =
      (invoices.filter (sweep_hits today)).map
        (fun inv => Event.paymentReminder (today - inv.due_date)) ∧
    (∀ inv ∈ invoices, inv.status = InvoiceStatus.sent →
        inv.due_date = today - 1 →
        Event.paymentReminder 1 ∈ (update_overdue_invoices today invoices).2) := by
  refine ⟨rfl, ?_, ?_, rfl, ?_⟩
  · intro inv h1 h2
    have hhit : sweep_hits today inv = true := by
      simp [sweep_hits, h1, h2]
    unfold sweep_invoice
    rw [if_pos hhit]
  · intro inv h
    have hhit : sweep_hits today inv = false := by
      unfold sweep_hits
      rcases not_and_or.mp h with h1 | h1 <;> simp [h1]
    unfold sweep_invoice
    rw [if_neg (by simp [hhit])]
  · intro inv hmem h1 h2
    have hlt : inv.due_date < today := by omega
    have hhit : sweep_hits today inv = true := by
      simp [sweep_hits, h1, hlt]
    have hmem2 : inv ∈ invoices.filter (sweep_hits today) :=
      List.mem_filter.mpr ⟨hmem, hhit⟩
    have hev : Event.paymentReminder (today - inv.due_date) ∈
        (update_overdue_invoices today invoices).2 :=
      List.mem_map_of_mem _ hmem2
    have harith : today - (today - 1) = 1 := by omega
    rw [h2, harith] at hev
    exact hev

/-- Witness for C5: one sent invoice due yesterday (day 9, sweep on day
10) produces a reminder with days_overdue = 1. -/
theorem C5_overdue_sweep_witness :
    Event.paymentReminder 1 ∈ (update_overdue_invoices 10 [sampleSentYesterday]).2 :=
  (C5_overdue_sweep [sampleSentYesterday] 10).2.2.2.2 sampleSentYesterday
    (by simp) rfl (by norm_num [sampleSentYesterday])

/-- C6: deleting an existing payment removes exactly that row; when the
invoice is paid it reverts to sent with `paid_at` cleared exactly when the
remaining payments sum below `total_amount`; the deletion path never
yields status overdue (even if due_date has passed); and for any non-paid
status the invoice row is untouched. -/
theorem C6_delete_payment (invoice : Invoice) (payments : List Payment)
    (payment_id : Nat)
    (hfound : (payments.find? (fun q => q.id == payment_id)).isSome = true) :
    ∃ inv' ps', delete_payment invoice payments payment_id = some (inv', ps') ∧
      ps' = payments.filter (fun q => q.id != payment_id) ∧
      (invoice.status = InvoiceStatus.paid →
        ((ps'.map Payment.amount).sum < invoice.total_amount →
            inv' = { invoice with status := InvoiceStatus.sent, paid_at := none }) ∧
        (invoice.total_amount ≤ (ps'.map Payment.amount).sum → inv' = invoice)) ∧
      (invoice.status ≠ InvoiceStatus.paid → inv' = invoice) ∧
      (inv'.status = InvoiceStatus.overdue →
        invoice.status = InvoiceStatus.overdue) := by
  obtain ⟨p, hp⟩ := Option.isSome_iff_exists.mp hfound
  obtain ⟨inv', hinv⟩ := delete_payment_found invoice payments payment_id p hp
  refine ⟨inv', payments.filter (fun q => q.id != payment_id), hinv, rfl, ?_, ?_, ?_⟩
  · intro hpaid
    exact delete_payment_paid_cases invoice payments payment_id hpaid _ hinv
  · intro hnp
    exact delete_payment_status_not_paid invoice payments payment_id hnp _ hinv
  · intro hov
    by_cases hpaid : invoice.status = InvoiceStatus.paid
    · obtain ⟨hbelow, habove⟩ :=
        delete_payment_paid_cases invoice payments payment_id hpaid _ hinv
      by_cases hlt : ((payments.filter (fun q => q.id != payment_id)).map
          Payment.amount).sum < invoice.total_amount
      · have hb : inv' = { invoice with status := InvoiceStatus.sent, paid_at := none } :=
          hbelow hlt
        rw [hb] at hov
        simp at hov
      · have ha : inv' = invoice := habove (not_lt.mp hlt)
        rw [ha, hpaid] at hov
        exact absurd hov (by decide)
    · have hn : inv' = invoice :=
        delete_payment_status_not_paid invoice payments payment_id hpaid _ hinv
      rw [hn] at hov
      exact hov

/-- Witness for C6: deleting the only payment (id 1, amount 100) of the
sample paid invoice. -/
theorem C6_delete_payment_witness :
    ∃ inv' ps', delete_payment samplePaid [⟨1, 100⟩] 1 = some (inv', ps') ∧
      ps' = ([⟨1, 100⟩] : List Payment).filter (fun q => q.id != 1) ∧
      (samplePaid.status = InvoiceStatus.paid →
        ((ps'.map Payment.amount).sum < samplePaid.total_amount →
            inv' = { samplePaid with status := InvoiceStatus.sent, paid_at := none }) ∧
        (samplePaid.total_amount ≤ (ps'.map Payment.amount).sum → inv' = samplePaid)) ∧
      (samplePaid.status ≠ InvoiceStatus.paid → inv' = samplePaid) ∧
      (inv'.status = InvoiceStatus.overdue →
        samplePaid.status = InvoiceStatus.overdue) :=
  C6_delete_payment samplePaid [⟨1, 100⟩] 1 (by decide)

/-- C2 counterexample: `mark_as_paid` guards only against invoices that
are already paid, so it moves the sample cancelled invoice to paid —
status cancelled is not absorbing. -/
theorem C2_counterexample :
    mark_as_paid sampleCancelled 7 =
      Except.ok
        ({ sampleCancelled with status := InvoiceStatus.paid, paid_at := some 7 },
         [Event.invoicePaid]) := by
  unfold mark_as_paid
  rw [if_neg (by decide : ¬ (sampleCancelled.status = InvoiceStatus.paid))]

/-- C2 (amended): cancelled is absorbing for update, send, recordPayment,
deletePayment and the overdue sweep (and delete removes the row rather
than transitioning it), but `mark_as_paid` moves a cancelled invoice to
paid; status paid is absorbing as claimed: update, send and markAsPaid
are rejected, delete is rejected, the sweep and recordPayment leave the
status paid, and only deletePayment moves it — to sent — exactly when the
remaining payments sum below `total_amount`. -/
theorem C2_absorbing_amended (inv : Invoice) :
    (inv.status = InvoiceStatus.cancelled →
      (∀ upd, update_invoice inv upd = Except.error ServiceError.badRequest) ∧
      (∀ e now, send_invoice inv e now = Except.error ServiceError.badRequest) ∧
      (∀ ps amt now, record_payment inv ps amt now =
          Except.error ServiceError.badRequest) ∧
      (∀ today, sweep_invoice today inv = inv) ∧
      (∀ ps pid r, delete_payment inv ps pid = some r → r.1 = inv) ∧
      (∀ now, mark_as_paid inv now =
        Except.ok ({ inv with status := InvoiceStatus.paid, paid_at := some now },
                   [Event.invoicePaid]))) ∧
    (inv.status = InvoiceStatus.paid →
      (∀ upd, update_invoice inv upd = Except.error ServiceError.badRequest) ∧
      (∀ e now, send_invoice inv e now = Except.error ServiceError.badRequest) ∧
      delete_invoice inv = Except.error ServiceError.badRequest ∧
      (∀ now, mark_as_paid inv now = Except.error ServiceError.badRequest) ∧
      (∀ today, sweep_invoice today inv = inv) ∧
      (∀ ps amt now r, record_payment inv ps amt now = Except.ok r →
          r.invoice.status = InvoiceStatus.paid) ∧
      (∀ ps pid r, delete_payment inv ps pid = some r →
          (((ps.filter (fun q => q.id != pid)).map Payment.amount).sum <
              inv.total_amount →
            r.1 = { inv with status := InvoiceStatus.sent, paid_at := none }) ∧
          (inv.total_amount ≤
              ((ps.filter (fun q => q.id != pid)).map Payment.amount).sum →
            r.1 = inv))) := by
  constructor
  · intro h
    refine ⟨?_, ?_, ?_, ?_, ?_, ?_⟩
    · intro upd
      unfold update_invoice
      rw [if_pos (Or.inr h)]
    · intro e now
      unfold send_invoice
      rw [if_pos (by rw [h]; decide : inv.status ≠ InvoiceStatus.draft)]
    · intro ps amt now
      unfold record_payment
      rw [if_pos h]
    · intro today
      simp [sweep_invoice, sweep_hits, h]
    · intro ps pid r hr
      exact delete_payment_status_not_paid inv ps pid (by rw [h]; decide) r hr
    · intro now
      unfold mark_as_paid
      rw [if_neg (by rw [h]; decide : ¬ (inv.status = InvoiceStatus.paid))]
  · intro h
    refine ⟨?_, ?_, ?_, ?_, ?_, ?_, ?_⟩
    · intro upd
      unfold update_invoice
      rw [if_pos (Or.inl h)]
    · intro e now
      unfold send_invoice
      rw [if_pos (by rw [h]; decide : inv.status ≠ InvoiceStatus.draft)]
    · unfold delete_invoice
      rw [if_pos h]
    · intro now
      unfold mark_as_paid
      rw [if_pos h]
    · intro today
      simp [sweep_invoice, sweep_hits, h]
    · intro ps amt now r hr
      unfold record_payment at hr
      rw [if_neg (by rw [h]; decide : ¬ (inv.status = InvoiceStatus.cancelled))] at hr
      split at hr
      · exact Except.noConfusion hr
      · split at hr
        · cases hr
          rfl
        · cases hr
          exact h
    · intro ps pid r hr
      exact delete_payment_paid_cases inv ps pid h r hr

/-- Witness for C2: the sample cancelled invoice rejects updates, and the
sample paid invoice rejects deletion. -/
theorem C2_absorbing_witness :
    update_invoice sampleCancelled {} = Except.error ServiceError.badRequest ∧
    delete_invoice samplePaid = Except.error ServiceError.badRequest :=
  ⟨((C2_absorbing_amended sampleCancelled).1 rfl).1 {},
   ((C2_absorbing_amended samplePaid).2 rfl).2.2.1⟩

/-- C4 counterexample: updating only the discount (no items in the
payload) does not recompute totals: the sample draft invoice satisfies
the totals invariant, the update succeeds and stores discount 50, but the
stored total stays 100 while the invariant demands max(0, 100 − 50) ×
(1 + 0/100) = 50. -/
theorem C4_counterexample :
    update_invoice sampleDraft { discount := some 50 } =
      Except.ok { sampleDraft with discount := 50 } ∧
    sampleDraft.total_amount =
      max 0 (sampleDraft.subtotal - sampleDraft.discount) *
        (1 + sampleDraft.tax_rate / 100) ∧
    ({ sampleDraft with discount := 50 } : Invoice).total_amount ≠
      max 0 (({ sampleDraft with discount := 50 } : Invoice).subtotal -
          ({ sampleDraft with discount := 50 } : Invoice).discount) *
        (1 + ({ sampleDraft with discount := 50 } : Invoice).tax_rate / 100) := by
  refine ⟨rfl, ?_, ?_⟩
  · norm_num [sampleDraft, max_def]
  · norm_num [sampleDraft, max_def]

/-- C4 (amended): `update_invoice` recomputes totals only when `items` is
provided in the payload: with items, the stored totals satisfy
total_amount = max(0, subtotal − discount) × (1 + tax_rate/100) for the
updated fields; without items, subtotal, tax_amount and total_amount are
left unchanged even when discount or tax_rate change. -/
theorem C4_update_recompute (invoice : Invoice) (upd : InvoiceUpdate)
    (hstatus : ¬ (invoice.status = InvoiceStatus.paid ∨
        invoice.status = InvoiceStatus.cancelled)) :
    (upd.items = none →
        update_invoice invoice upd =
          Except.ok { invoice with
            status := upd.status.getD invoice.status,
            tax_rate := upd.tax_rate.getD invoice.tax_rate,
            discount := upd.discount.getD invoice.discount,
            due_date := upd.due_date.getD invoice.due_date }) ∧
    (∀ items, upd.items = some items →
        ∀ inv', update_invoice invoice upd = Except.ok inv' →
          inv'.subtotal =
            (items.map (fun i => (i.quantity : Rat) * i.unit_price)).sum ∧
          inv'.discount = upd.discount.getD invoice.discount ∧
          inv'.tax_rate = upd.tax_rate.getD invoice.tax_rate ∧
          inv'.total_amount =
            max 0 (inv'.subtotal - inv'.discount) * (1 + inv'.tax_rate / 100)) := by
  constructor
  · intro hnone
    unfold update_invoice
    rw [if_neg hstatus, hnone]
  · intro items hitems inv' heq
    simp only [update_invoice, if_neg hstatus, hitems] at heq
    injection heq with heq
    subst heq
    refine ⟨rfl, rfl, rfl, ?_⟩
    simp only [calculate_invoice_totals]
    rw [clamp_eq_max]
    ring

/-- Witness for C4: a discount-only update of the sample draft invoice
leaves all stored totals unchanged. -/
theorem C4_update_recompute_witness :
    update_invoice sampleDraft { discount := some 50 } =
      Except.ok { sampleDraft with discount := 50 } :=
  (C4_update_recompute sampleDraft { discount := some 50 } (by decide)).1 rfl

end Billflow
